import Mathlib

/-!
# Verification of the flood-aware routing core

Shallow embedding, over `ℚ`, of the core of the `intel-igence` repository:

* `person3/car.py` — vehicle profiles (`Cars`, `suv`, `car`, `bike`,
  `get_vehicle_profile`, `create_vehicle`);
* `person3/cost.py` — the per-vehicle edge-cost model
  (`compute_speed_in_flood`, `compute_travel_time`,
  `compute_flooding_exposure`, `compute_edge_weight`);
* `roadrisk.py` — the rainfall/elevation risk model
  (`normalize_rain`, `compute_road_risk`, `compute_all_roads`);
* `person3/router.py` / `person3/simulation.py` — route computation over an
  osmnx multigraph (`compute_route`, `simulate_traffic`'s per-trial body);
* `person3/route_networkx.py` — the build-time collapse of parallel edges.

Python floats are modelled by exact rationals; Python dictionaries with a
known key set are modelled by structures whose fields are `Option`-valued
when the corresponding key may be absent (`dict.get` with a default becomes
`Option.getD`).
-/

namespace Intel

/-! ## `person3/car.py` -/

/-- `dict.get(key, default)` on a string-keyed rational-valued dict,
modelled as an association list. -/
def dictGet (l : List (String × ℚ)) (k : String) (dflt : ℚ) : ℚ :=
  match l.find? (fun p => p.1 = k) with
  | some p => p.2
  | none => dflt

/-- The `Cars` dataclass of `person3/car.py`. -/
structure Cars where
  name : String
  base_speed_kmph : ℚ
  road_multipliers : List (String × ℚ)
  impassable_flood_depth_m : ℚ
  flood_speed_loss_per_mm : ℚ
  flood_penalty_lambda : ℚ
  color : String
deriving DecidableEq

/-- The `suv` profile constant of `person3/car.py`. -/
def suv : Cars :=
  { name := "suv"
    base_speed_kmph := 50
    road_multipliers :=
      [("highway", 2.0), ("primary", 1.0), ("secondary", 0.85), ("residential", 0.65)]
    impassable_flood_depth_m := 0.6
    flood_speed_loss_per_mm := 0.1
    flood_penalty_lambda := 50
    color := "#1f77b4" }

/-- The `car` profile constant of `person3/car.py`. -/
def car : Cars :=
  { name := "car"
    base_speed_kmph := 55
    road_multipliers :=
      [("highway", 1.8), ("primary", 0.9), ("secondary", 0.75), ("residential", 0.75)]
    impassable_flood_depth_m := 0.3
    flood_speed_loss_per_mm := 0.2
    flood_penalty_lambda := 200
    color := "#ff7f0e" }

/-- The `bike` profile constant of `person3/car.py`. -/
def bike : Cars :=
  { name := "bike"
    base_speed_kmph := 40
    road_multipliers :=
      [("highway", 1.5), ("primary", 1.0), ("secondary", 0.9), ("residential", 0.8)]
    impassable_flood_depth_m := 0.1
    flood_speed_loss_per_mm := 0.5
    flood_penalty_lambda := 500
    color := "#2ca02c" }

/-- Python's `str.lower()`, modelled character-wise over the string's char
list (extensionally `String.toLower`; the char-list formulation is used
because core `String.map` is positional recursion that does not reduce). -/
def strLower (s : String) : String := String.mk (s.data.map Char.toLower)

/-- `get_vehicle_profile` of `person3/car.py`: dictionary lookup on the
lowercased vehicle type, `None` when absent. -/
def get_vehicle_profile (vehicle_type : String) : Option Cars :=
  match (List.find? (fun p => p.1 = strLower vehicle_type)
      [("suv", suv), ("car", car), ("bike", bike)]) with
  | some p => some p.2
  | none => none

/-- The vehicle dict built by `create_vehicle` (`origin`/`destination` start as
`None`, `route` as `[]`; the empty `stats` dict carries no information). -/
structure Vehicle where
  id : String
  type : String
  profile : Cars
  origin : Option ℕ
  destination : Option ℕ
  route : List ℕ
deriving DecidableEq

/-- `create_vehicle` of `person3/car.py`. The `ValueError` raised on an
unknown vehicle type is modelled by `none`. -/
def create_vehicle (id : String) (type : String) : Option Vehicle :=
  match get_vehicle_profile type with
  | none => none
  | some p => some { id := id, type := type, profile := p,
                     origin := none, destination := none, route := [] }

/-! ## `person3/cost.py` -/

/-- An edge-attribute dict as consumed by `compute_edge_weight`: each of the
three keys it reads may be absent (`none`), in which case the `.get` default
applies. -/
structure EdgeData where
  flood_depth : Option ℚ
  road_class : Option String
  length : Option ℚ
deriving DecidableEq

/-- `compute_speed_in_flood` of `person3/cost.py`. -/
def compute_speed_in_flood (base_speed_kmph flood_depth_m loss_rate_per_mm : ℚ) : ℚ :=
  let flood_depth_mm := flood_depth_m * 1000
  let speed_loss := loss_rate_per_mm * flood_depth_mm
  let adjusted_speed_kmph := max (base_speed_kmph - speed_loss) 0
  max 0.1 adjusted_speed_kmph

/-- `compute_travel_time` of `person3/cost.py` (`speed * 5/18` converts
km/h to m/s). -/
def compute_travel_time (edge_length_m speed_kmph : ℚ) : ℚ :=
  let speed_mps := speed_kmph * 5 / 18
  edge_length_m / speed_mps

/-- `compute_flooding_exposure` of `person3/cost.py`. -/
def compute_flooding_exposure (flood_depth_m edge_length_m : ℚ) : ℚ :=
  flood_depth_m * edge_length_m

/-- `compute_edge_weight` of `person3/cost.py`. -/
def compute_edge_weight (edge_data : EdgeData) (vehicle_profile : Cars) : ℚ :=
  let flood_depth := edge_data.flood_depth.getD 0.0
  let road_class := edge_data.road_class.getD "residential"
  let road_multiplier := dictGet vehicle_profile.road_multipliers road_class 1.0
  let edge_length_m := edge_data.length.getD 100.0
  let base_speed_kmph := vehicle_profile.base_speed_kmph * road_multiplier
  let flood_speed_kmph :=
    compute_speed_in_flood base_speed_kmph flood_depth vehicle_profile.flood_speed_loss_per_mm
  let travel_time_s := compute_travel_time edge_length_m flood_speed_kmph
  let exposure := compute_flooding_exposure flood_depth edge_length_m
  travel_time_s + exposure * vehicle_profile.flood_penalty_lambda

/-! ## `roadrisk.py` -/

/-- A Python value found in a road record's field, as far as
`float(road.get(key) or 0.0)` can observe it: `vnone` is a missing key or
`None` (or any other falsy value — `or 0.0` turns it into `0.0`),
`vnum q` is a number (or a numeric string) converting to `q`, and `vbad` is
a truthy value on which `float()` raises. -/
inductive RVal where
  | vnone : RVal
  | vnum : ℚ → RVal
  | vbad : RVal
deriving DecidableEq

/-- `float(v or 0.0)`: the conversion used for every numeric field of a road
record in `compute_road_risk`; the exception raised on a non-convertible
truthy value is modelled by `Except.error`. -/
def floatOr : RVal → Except Unit ℚ
  | RVal.vnone => Except.ok 0
  | RVal.vnum q => Except.ok q
  | RVal.vbad => Except.error ()

/-- A road record as consumed by `compute_road_risk` / `compute_all_roads`
(the loader `_load_roads_from_backend` always produces a string `id`). -/
structure Road where
  id : String
  length : RVal
  min_elev : RVal
  max_elev : RVal
  avg_elevation : RVal
deriving DecidableEq

/-- `RAIN_WEIGHT` of `roadrisk.py`. -/
def RAIN_WEIGHT : ℚ := 0.55

/-- `ELEV_WEIGHT` of `roadrisk.py`. -/
def ELEV_WEIGHT : ℚ := 0.25

/-- `FLAT_WEIGHT` of `roadrisk.py`. -/
def FLAT_WEIGHT : ℚ := 0.20

/-- `normalize_rain` of `roadrisk.py` at its default `max_rain=50.0` (the
only way it is ever called); the argument is already numeric, so the
`try/except` conversion is the identity. -/
def normalize_rain (mm_per_hr : ℚ) : ℚ :=
  max 0.0 (min 1.0 (mm_per_hr / 50.0))

/-- The `slope` intermediate of `compute_road_risk`: `(max-min)/length`
guarded by `length > 0` and a non-negative numerator, then clamped to
`[0, 1]`. -/
def risk_slope (length min_elev max_elev : ℚ) : ℚ :=
  max 0.0 (min 1.0
    (if length > 0 ∧ max_elev - min_elev ≥ 0 then (max_elev - min_elev) / length else 0.0))

/-- The `norm_elev` intermediate of `compute_road_risk`: the average
elevation normalized within its min/max range, clamped to `[0, 1]`, with a
zero-range guard. -/
def risk_norm_elev (min_elev max_elev avg_elev : ℚ) : ℚ :=
  if max_elev - min_elev > 0 then
    max 0.0 (min 1.0 ((avg_elev - min_elev) / (max_elev - min_elev)))
  else 0.0

/-- The `risk` intermediate of `compute_road_risk`:
`clamp(rain_norm * (RAIN_WEIGHT + low_elev_factor*ELEV_WEIGHT + flatness*FLAT_WEIGHT), 0, 1)`
with `low_elev_factor = 1 - norm_elev` and `flatness = 1 - slope`. -/
def risk_value (length min_elev max_elev avg_elev rain_mm : ℚ) : ℚ :=
  max 0.0 (min 1.0 (normalize_rain rain_mm *
    (RAIN_WEIGHT +
      ((1.0 - risk_norm_elev min_elev max_elev avg_elev) * ELEV_WEIGHT +
        (1.0 - risk_slope length min_elev max_elev) * FLAT_WEIGHT))))

/-- The `level` thresholds of `compute_road_risk`. -/
def risk_level (risk : ℚ) : String :=
  if risk > 0.7 then "very high"
  else if risk > 0.45 then "high"
  else if risk > 0.2 then "medium"
  else "low"

/-- The body of `compute_road_risk` after the four `float(... or 0.0)` field
conversions have succeeded, as a function of the converted numbers. -/
def compute_road_risk_core (length min_elev max_elev avg_elev rain_mm : ℚ) : ℚ × String :=
  (risk_value length min_elev max_elev avg_elev rain_mm,
   risk_level (risk_value length min_elev max_elev avg_elev rain_mm))

/-- `compute_road_risk` of `roadrisk.py`: convert the four fields (an
exception in any conversion propagates), then apply the risk formula. -/
def compute_road_risk (road : Road) (rain_mm : ℚ) : Except Unit (ℚ × String) := do
  let length ← floatOr road.length
  let min_elev ← floatOr road.min_elev
  let max_elev ← floatOr road.max_elev
  let avg_elev ← floatOr road.avg_elevation
  pure (compute_road_risk_core length min_elev max_elev avg_elev rain_mm)

/-- Round-half-to-even to an integer, the rounding mode of Python's
`round`. -/
def roundHalfEven (x : ℚ) : ℤ :=
  if Int.fract x < 1 / 2 then ⌊x⌋
  else if Int.fract x > 1 / 2 then ⌊x⌋ + 1
  else if Even ⌊x⌋ then ⌊x⌋ else ⌊x⌋ + 1

/-- Python's `round(x, 2)`: round-half-to-even at two decimal places. -/
def roundPy2 (x : ℚ) : ℚ := (roundHalfEven (100 * x) : ℚ) / 100

/-- One output record of `compute_all_roads`: the dict
`{id, length, risk, level, avg_elevation}` (`length` and `avg_elevation`
are passed through raw, not converted). -/
structure RoadOut where
  id : Option String
  length : RVal
  risk : ℚ
  level : String
  avg_elevation : RVal
deriving DecidableEq

/-- The loop body of `compute_all_roads` for one road: the `try/except`
around `compute_road_risk` replaces an exception by `(0.0, "low")`, and the
appended dict rounds the risk to two decimals. -/
def road_out (r : Road) (rain_mm : ℚ) : RoadOut :=
  let rl : ℚ × String :=
    match compute_road_risk r rain_mm with
    | Except.ok v => v
    | Except.error _ => (0.0, "low")
  { id := some r.id
    length := r.length
    risk := roundPy2 rl.1
    level := rl.2
    avg_elevation := r.avg_elevation }

/-- `compute_all_roads` of `roadrisk.py`, as a function of the road list the
file load produced (the `_load_roads_from_backend` re-read is I/O and is
modelled by passing the freshly loaded list as an argument). -/
def compute_all_roads (current_roads : List Road) (rain_mm : ℚ) : List RoadOut :=
  current_roads.map (fun r => road_out r rain_mm)

/-! ## The osmnx road multigraph, `person3/router.py` and `person3/simulation.py`

The graph handed to `compute_route` / `simulate_traffic` is an osmnx
`MultiDiGraph`: integer node ids with `y`/`x` (lat/lon) attributes, and for
each ordered node pair a dict, keyed by consecutive integers starting at 0,
of parallel edge-attribute dicts.  We model the keyed dict as a list
(`adj u v`), index = key, empty when there is no edge. -/

/-- An osmnx-style multigraph. -/
structure MultiGraph where
  nodes : List ℕ
  y : ℕ → ℚ
  x : ℕ → ℚ
  adj : ℕ → ℕ → List EdgeData

/-- The edge-attribute dict `g[u][v][0]` used by `simulation.py` (and by the
dead fallback branch of `router.py`): the parallel edge with key `0`. -/
def edgeKey0 (g : MultiGraph) (u v : ℕ) : EdgeData :=
  (g.adj u v).headD ⟨none, none, none⟩

/-- `osmnx.nearest_nodes(g, X, Y)` for a single query point: the graph node
nearest to the query, ties broken by the first node encountered.  (osmnx
uses great-circle distance; the argmin is modelled with the squared
coordinate distance, which agrees on every input this development
evaluates — in particular whenever the query coincides with a node.) -/
def nearest_nodes (g : MultiGraph) (X Y : ℚ) : Option ℕ :=
  g.nodes.foldl (fun acc n =>
    match acc with
    | none => some n
    | some b =>
        if (g.x n - X) ^ 2 + (g.y n - Y) ^ 2 < (g.x b - X) ^ 2 + (g.y b - Y) ^ 2
        then some n else acc) none

/-- A frontier entry of the Dijkstra search: accumulated distance, current
node, and the path from the source to that node in reverse order. -/
abbrev DEntry : Type := ℚ × ℕ × List ℕ

/-- Remove the first minimum-distance entry from the frontier (the heap pop
of `networkx`'s Dijkstra; ties go to the earliest-pushed entry). -/
def popMin : List DEntry → Option (DEntry × List DEntry)
  | [] => none
  | e :: rest =>
    match popMin rest with
    | none => some (e, [])
    | some (m, rest') => if e.1 ≤ m.1 then some (e, rest) else some (m, e :: rest')

/-- The main loop of `networkx`'s Dijkstra (`dijkstra_path` with a callable
weight), instrumented to carry explicit paths: pop the minimum-distance
entry; skip it if its node is already finalized; stop when the target is
popped; otherwise relax all not-yet-finalized neighbours.  `fuel` bounds
the number of pops (every pop removes one frontier entry, so
`(|nodes|+1)²` pops always suffice to drain the frontier). -/
def dijkstraLoop (g : MultiGraph) (w : ℕ → ℕ → ℚ) (target : ℕ) :
    ℕ → List DEntry → List ℕ → Option (List ℕ)
  | 0, _, _ => none
  | fuel + 1, frontier, visited =>
    match popMin frontier with
    | none => none
    | some (e, rest) =>
      if e.2.1 ∈ visited then dijkstraLoop g w target fuel rest visited
      else if e.2.1 = target then some e.2.2.reverse
      else
        let nbrs := g.nodes.filter (fun v => ¬(g.adj e.2.1 v).isEmpty ∧ v ∉ visited)
        dijkstraLoop g w target fuel
          (rest ++ nbrs.map (fun v => (e.1 + w e.2.1 v, v, v :: e.2.2)))
          (e.2.1 :: visited)

/-- `nx.dijkstra_path(g, source, target, weight)` with a callable weight:
`some path` on success, `none` when `NetworkXNoPath` is raised. -/
def dijkstra_path (g : MultiGraph) (w : ℕ → ℕ → ℚ) (source target : ℕ) :
    Option (List ℕ) :=
  dijkstraLoop g w target ((g.nodes.length + 1) * (g.nodes.length + 1))
    [(0, source, [source])] []

/-- What `router.py`'s `weight_function(u, v, d)` actually applies
`compute_edge_weight` to on a multigraph: `networkx` passes the
integer-keyed dict of parallel edge-attribute dicts as `d`;
`isinstance(d, dict)` is true, so `edge_data = d`, and the string lookups
`d.get('flood_depth')`, `d.get('road_class')`, `d.get('length')` all miss
(its keys are the integers 0, 1, …) and yield their defaults. -/
def keyed_dict_view (_g : MultiGraph) (_u _v : ℕ) : EdgeData :=
  ⟨none, none, none⟩

/-- The `weight_function` closure of `router.py` as seen by the search. -/
def weight_function (g : MultiGraph) (vehicle_profile : Cars) (u v : ℕ) : ℚ :=
  compute_edge_weight (keyed_dict_view g u v) vehicle_profile

/-- The result dict of `compute_route`. -/
structure RouteResult where
  path : List ℕ
  vehicle_type : String
  status : String
deriving DecidableEq

/-- `compute_route` of `person3/router.py`.  Coordinates are `(lat, lon)`
pairs; `nearest_nodes` is called with `(coord[1], coord[0])`.  `none`
models an exception escaping (`nearest_nodes` on an empty graph); the
caught `NetworkXNoPath` produces the `blocked` dict. -/
def compute_route (g : MultiGraph) (starting_coord target_coord : ℚ × ℚ)
    (vehicle_profile : Cars) : Option RouteResult :=
  match nearest_nodes g starting_coord.2 starting_coord.1,
        nearest_nodes g target_coord.2 target_coord.1 with
  | some starting_node, some target_node =>
    match dijkstra_path g (weight_function g vehicle_profile) starting_node target_node with
    | some path => some { path := path, vehicle_type := vehicle_profile.name, status := "success" }
    | none => some { path := [], vehicle_type := vehicle_profile.name, status := "blocked" }
  | _, _ => none

/-- A node sequence all of whose consecutive pairs are edges of `g`. -/
def isChain (g : MultiGraph) : List ℕ → Bool
  | [] => true
  | [_] => true
  | a :: b :: l => ¬(g.adj a b).isEmpty && isChain g (b :: l)

/-- A path from `s` to `t` exists in `g`. -/
def Reachable (g : MultiGraph) (s t : ℕ) : Prop :=
  ∃ p : List ℕ, p.head? = some s ∧ p.getLast? = some t ∧ isChain g p = true

/-- One result record appended by `simulate_traffic`; fields present in only
one of the two branches are `Option`-valued, and `float('inf')` is `⊤` in
`WithTop ℚ`. -/
structure SimRecord where
  vehicle_id : ℕ
  vehicle_type : String
  status : String
  start_node : ℕ
  end_node : Option ℕ
  path_coords : Option (List (ℚ × ℚ))
  start_coord : Option (ℚ × ℚ)
  total_cost : WithTop ℚ
deriving DecidableEq

/-- The `total_cost` accumulation loop of `simulate_traffic`:
`for j in range(len(path)-1): total_cost += compute_edge_weight(g[u][v][0], profile)`. -/
def sum_edge_costs (g : MultiGraph) (profile : Cars) : List ℕ → ℚ
  | a :: b :: l => compute_edge_weight (edgeKey0 g a b) profile + sum_edge_costs g profile (b :: l)
  | _ => 0

/-- The `(lat, lon)` coordinate list built alongside the cost loop (one entry
per node of the path: all but the last inside the loop, the last appended
after it). -/
def coord_path (g : MultiGraph) (path : List ℕ) : List (ℚ × ℚ) :=
  path.map (fun n => (g.y n, g.x n))

/-- The body of one iteration of `simulate_traffic`'s loop, as a function of
the random draws of that iteration (the vehicle type chosen from
`available_types` and the two sampled nodes `u ≠ v`).  `none` models an
exception escaping the iteration (`create_vehicle` on an unknown type, or
`nearest_nodes` on an empty graph). -/
def simulate_trial (g : MultiGraph) (i : ℕ) (vehicle_type : String) (u v : ℕ) :
    Option SimRecord :=
  match create_vehicle (toString i) vehicle_type with
  | none => none
  | some veh =>
    let start_coord : ℚ × ℚ := (g.y u, g.x u)
    let end_coord : ℚ × ℚ := (g.y v, g.x v)
    match compute_route g start_coord end_coord veh.profile with
    | none => none
    | some route_result =>
      if route_result.status = "success" then
        some { vehicle_id := i
               vehicle_type := vehicle_type
               status := "success"
               start_node := u
               end_node := some v
               path_coords := some (coord_path g route_result.path)
               start_coord := none
               total_cost := ((sum_edge_costs g veh.profile route_result.path : ℚ) : WithTop ℚ) }
      else
        some { vehicle_id := i
               vehicle_type := vehicle_type
               status := "stranded"
               start_node := u
               end_node := none
               path_coords := none
               start_coord := some (start_coord.1, start_coord.2)
               total_cost := ⊤ }

/-- The claim-side formulation of the route cost: the sum of
`compute_edge_weight` over the consecutive edges of a path, written
independently of the accumulation loop. -/
def path_cost_spec (g : MultiGraph) (profile : Cars) (path : List ℕ) : ℚ :=
  ((path.zip path.tail).map (fun q => compute_edge_weight (edgeKey0 g q.1 q.2) profile)).sum

/-! ## `person3/route_networkx.py`: build-time collapse of parallel edges

`build_graph_from_bbox` builds an undirected simple `nx.Graph` whose nodes
are coordinate strings `f"{lon:.5f},{lat:.5f}"`; we model the quantized key
as a pair of integers.  For each consecutive coordinate pair of each
feature it inserts one edge; a parallel edge between the same endpoint keys
overwrites the stored one exactly when its weight is strictly smaller.
The haversine length is a real-valued library computation and enters the
insert step as a number. -/

/-- A quantized node key: `f"{lon:.5f},{lat:.5f}"` as the pair of
round-half-even integer numerators at 5 decimal places. -/
def key5 (lon lat : ℚ) : ℤ × ℤ :=
  (roundHalfEven (100000 * lon), roundHalfEven (100000 * lat))

/-- The attributes stored on one `nx.Graph` edge by
`build_graph_from_bbox`. -/
structure SEdge where
  weight : ℚ
  length : ℚ
  risk : ℚ
deriving DecidableEq

/-- Undirected adjacency of the build graph as an association list on
unordered key pairs. -/
def edgeMatches (ka kb : ℤ × ℤ) (p : (ℤ × ℤ) × (ℤ × ℤ)) : Bool :=
  (p.1 = ka ∧ p.2 = kb) ∨ (p.1 = kb ∧ p.2 = ka)

/-- `G.has_edge(ka, kb)` / `G[ka][kb]` on the undirected build graph. -/
def lookup_edge (es : List (((ℤ × ℤ) × (ℤ × ℤ)) × SEdge)) (ka kb : ℤ × ℤ) :
    Option SEdge :=
  match es.find? (fun pe => edgeMatches ka kb pe.1) with
  | some pe => some pe.2
  | none => none

/-- `G[ka][kb].update({...})`: replace the attributes of the (unique, hence
first) edge between `ka` and `kb`. -/
def update_edge (es : List (((ℤ × ℤ) × (ℤ × ℤ)) × SEdge)) (ka kb : ℤ × ℤ)
    (e : SEdge) : List (((ℤ × ℤ) × (ℤ × ℤ)) × SEdge) :=
  match es with
  | [] => []
  | pe :: rest =>
    if edgeMatches ka kb pe.1 then (pe.1, e) :: rest
    else pe :: update_edge rest ka kb e

/-- The per-segment edge insert of `build_graph_from_bbox` (its inner loop
body, after the haversine `length` has been computed):
`weight = length * (1 + risk_val * risk_penalty)`; if the edge already
exists keep the smaller-weight attributes, else add the edge. -/
def add_segment_edge (es : List (((ℤ × ℤ) × (ℤ × ℤ)) × SEdge)) (ka kb : ℤ × ℤ)
    (length risk_val risk_penalty : ℚ) : List (((ℤ × ℤ) × (ℤ × ℤ)) × SEdge) :=
  let weight := length * (1 + risk_val * risk_penalty)
  match lookup_edge es ka kb with
  | some old =>
    if weight < old.weight then
      update_edge es ka kb { weight := weight, length := length, risk := risk_val }
    else es
  | none => ((ka, kb), { weight := weight, length := length, risk := risk_val }) :: es

/-! ## Auxiliary notions for the correctness arguments -/

/-- Chain property of a reversed path: `isChainR g [vₖ, …, v₁, v₀]` holds
when each `vᵢ → vᵢ₊₁` is an edge of `g`. -/
def isChainR (g : MultiGraph) : List ℕ → Bool
  | b :: a :: l => ¬(g.adj a b).isEmpty && isChainR g (a :: l)
  | _ => true

/-- The invariant of a Dijkstra frontier entry `(d, n, rp)`: `rp` is a
reversed chain from the source `s` to `n`. -/
def EntryInv (g : MultiGraph) (s : ℕ) (e : DEntry) : Prop :=
  e.2.2.head? = some e.2.1 ∧ e.2.2.getLast? = some s ∧ isChainR g e.2.2 = true

/-- Example graph: two nodes at `(lat, lon) = (0,0)` and `(1,1)` joined by a
single dry 10 m residential edge in both directions. -/
def cg2 : MultiGraph :=
  { nodes := [1, 2]
    y := fun n => if n = 1 then 0 else 1
    x := fun n => if n = 1 then 0 else 1
    adj := fun u v =>
      if (u = 1 ∧ v = 2) ∨ (u = 2 ∧ v = 1) then
        [⟨some 0, some "residential", some 10⟩]
      else [] }

/-- Example multigraph: two nodes joined by two parallel 100 m residential
edges; the edge with key 0 is flooded 0.5 m, the edge with key 1 is dry, so
the key-1 edge has the strictly smaller cost for every profile with a
positive penalty. -/
def mg9 : MultiGraph :=
  { nodes := [1, 2]
    y := fun n => if n = 1 then 0 else 1
    x := fun n => if n = 1 then 0 else 1
    adj := fun u v =>
      if (u = 1 ∧ v = 2) ∨ (u = 2 ∧ v = 1) then
        [⟨some 0.5, some "residential", some 100⟩, ⟨some 0, some "residential", some 100⟩]
      else [] }

/-- Example graph: two nodes and no edges at all. -/
def dg : MultiGraph :=
  { nodes := [1, 2]
    y := fun n => if n = 1 then 0 else 1
    x := fun n => if n = 1 then 0 else 1
    adj := fun _ _ => [] }

/-! ## Helper lemmas: risk model -/

lemma floatOr_ok {v : RVal} (h : v ≠ RVal.vbad) : ∃ q, floatOr v = Except.ok q := by
  cases v with
  | vnone => exact ⟨0, rfl⟩
  | vnum q => exact ⟨q, rfl⟩
  | vbad => exact absurd rfl h

lemma risk_slope_nonneg (L mn mx : ℚ) : 0 ≤ risk_slope L mn mx := by
  unfold risk_slope
  exact le_trans (by norm_num) (le_max_left _ _)

lemma risk_slope_le_one (L mn mx : ℚ) : risk_slope L mn mx ≤ 1 := by
  unfold risk_slope
  exact max_le (by norm_num) (le_trans (min_le_left _ _) (by norm_num))

lemma risk_norm_elev_nonneg (mn mx av : ℚ) : 0 ≤ risk_norm_elev mn mx av := by
  unfold risk_norm_elev
  split_ifs
  · exact le_trans (by norm_num) (le_max_left _ _)
  · norm_num

lemma risk_norm_elev_le_one (mn mx av : ℚ) : risk_norm_elev mn mx av ≤ 1 := by
  unfold risk_norm_elev
  split_ifs
  · exact max_le (by norm_num) (le_trans (min_le_left _ _) (by norm_num))
  · norm_num

lemma risk_value_nonneg (L mn mx av r : ℚ) : 0 ≤ risk_value L mn mx av r := by
  unfold risk_value
  exact le_trans (by norm_num) (le_max_left _ _)

lemma risk_value_le_one (L mn mx av r : ℚ) : risk_value L mn mx av r ≤ 1 := by
  unfold risk_value
  exact max_le (by norm_num) (le_trans (min_le_left _ _) (by norm_num))

lemma risk_value_zero_rain (L mn mx av : ℚ) : risk_value L mn mx av 0 = 0 := by
  norm_num [risk_value, normalize_rain]

lemma risk_level_zero : risk_level 0 = "low" := by
  norm_num [risk_level]

lemma normalize_rain_mono {r1 r2 : ℚ} (h : r1 ≤ r2) :
    normalize_rain r1 ≤ normalize_rain r2 := by
  unfold normalize_rain
  refine max_le_max le_rfl (min_le_min le_rfl ?_)
  have h50 : (0 : ℚ) < 50.0 := by norm_num
  exact div_le_div_of_nonneg_right h h50.le

lemma risk_value_mono_rain (L mn mx av : ℚ) {r1 r2 : ℚ} (h : r1 ≤ r2) :
    risk_value L mn mx av r1 ≤ risk_value L mn mx av r2 := by
  have hW : (0 : ℚ) ≤ RAIN_WEIGHT +
      ((1.0 - risk_norm_elev mn mx av) * ELEV_WEIGHT +
        (1.0 - risk_slope L mn mx) * FLAT_WEIGHT) := by
    have h1 := risk_norm_elev_le_one mn mx av
    have h2 := risk_slope_le_one L mn mx
    unfold RAIN_WEIGHT ELEV_WEIGHT FLAT_WEIGHT
    nlinarith
  unfold risk_value
  exact max_le_max le_rfl
    (min_le_min le_rfl (mul_le_mul_of_nonneg_right (normalize_rain_mono h) hW))

lemma compute_road_risk_ok (road : Road) (rain_mm : ℚ)
    (hl : road.length ≠ RVal.vbad) (hmn : road.min_elev ≠ RVal.vbad)
    (hmx : road.max_elev ≠ RVal.vbad) (hav : road.avg_elevation ≠ RVal.vbad) :
    ∃ qL qn qx qa, floatOr road.length = Except.ok qL ∧
      floatOr road.min_elev = Except.ok qn ∧
      floatOr road.max_elev = Except.ok qx ∧
      floatOr road.avg_elevation = Except.ok qa ∧
      compute_road_risk road rain_mm =
        Except.ok (risk_value qL qn qx qa rain_mm, risk_level (risk_value qL qn qx qa rain_mm)) := by
  obtain ⟨qL, hL⟩ := floatOr_ok hl
  obtain ⟨qn, hn⟩ := floatOr_ok hmn
  obtain ⟨qx, hx⟩ := floatOr_ok hmx
  obtain ⟨qa, ha⟩ := floatOr_ok hav
  refine ⟨qL, qn, qx, qa, hL, hn, hx, ha, ?_⟩
  simp only [compute_road_risk, hL, hn, hx, ha, compute_road_risk_core]
  rfl

/-- C4: for every road record with numeric (non-raising) length and elevation
fields and every rainfall `rain_mm ≥ 0`, `compute_road_risk` succeeds and
returns `0 ≤ risk ≤ 1`, and at `rain_mm = 0` it returns risk exactly `0`
with level `"low"` regardless of the elevation data. -/
theorem compute_road_risk_bounds (road : Road) (rain_mm : ℚ) (h0 : 0 ≤ rain_mm)
    (hl : road.length ≠ RVal.vbad) (hmn : road.min_elev ≠ RVal.vbad)
    (hmx : road.max_elev ≠ RVal.vbad) (hav : road.avg_elevation ≠ RVal.vbad) :
    ∃ risk level, compute_road_risk road rain_mm = Except.ok (risk, level) ∧
      0 ≤ risk ∧ risk ≤ 1 ∧ (rain_mm = 0 → risk = 0 ∧ level = "low") := by
  obtain ⟨qL, qn, qx, qa, _, _, _, _, hres⟩ :=
    compute_road_risk_ok road rain_mm hl hmn hmx hav
  refine ⟨_, _, hres, risk_value_nonneg _ _ _ _ _, risk_value_le_one _ _ _ _ _, ?_⟩
  rintro rfl
  rw [risk_value_zero_rain, risk_level_zero]
  exact ⟨rfl, rfl⟩

/-- Witness for C4 at a concrete road and `rain_mm = 0`. -/
theorem compute_road_risk_bounds_witness :
    ∃ risk level,
      compute_road_risk ⟨"w4", RVal.vnum 120, RVal.vnum 3, RVal.vnum 9, RVal.vnum 5⟩ 0 =
        Except.ok (risk, level) ∧
      0 ≤ risk ∧ risk ≤ 1 ∧ ((0 : ℚ) = 0 → risk = 0 ∧ level = "low") :=
  compute_road_risk_bounds ⟨"w4", RVal.vnum 120, RVal.vnum 3, RVal.vnum 9, RVal.vnum 5⟩ 0
    le_rfl (by decide) (by decide) (by decide) (by decide)

/-- C7: for a fixed road record (numeric fields), the risk returned by
`compute_road_risk` is non-decreasing in `rain_mm`. -/
theorem compute_road_risk_mono_rain (road : Road) (r1 r2 : ℚ)
    (h0 : 0 ≤ r1) (h12 : r1 ≤ r2)
    (hl : road.length ≠ RVal.vbad) (hmn : road.min_elev ≠ RVal.vbad)
    (hmx : road.max_elev ≠ RVal.vbad) (hav : road.avg_elevation ≠ RVal.vbad) :
    ∃ q1 l1 q2 l2, compute_road_risk road r1 = Except.ok (q1, l1) ∧
      compute_road_risk road r2 = Except.ok (q2, l2) ∧ q1 ≤ q2 := by
  obtain ⟨qL, qn, qx, qa, hL, hn, hx, ha, hres1⟩ :=
    compute_road_risk_ok road r1 hl hmn hmx hav
  obtain ⟨qL', qn', qx', qa', hL', hn', hx', ha', hres2⟩ :=
    compute_road_risk_ok road r2 hl hmn hmx hav
  rw [hL] at hL'; rw [hn] at hn'; rw [hx] at hx'; rw [ha] at ha'
  cases hL'; cases hn'; cases hx'; cases ha'
  exact ⟨_, _, _, _, hres1, hres2, risk_value_mono_rain qL qn qx qa h12⟩

/-- Witness for C7 at a concrete road and `0 ≤ 10 ≤ 20`. -/
theorem compute_road_risk_mono_rain_witness :
    ∃ q1 l1 q2 l2,
      compute_road_risk ⟨"w7", RVal.vnum 100, RVal.vnum 1, RVal.vnum 5, RVal.vnum 2⟩ 10 =
        Except.ok (q1, l1) ∧
      compute_road_risk ⟨"w7", RVal.vnum 100, RVal.vnum 1, RVal.vnum 5, RVal.vnum 2⟩ 20 =
        Except.ok (q2, l2) ∧ q1 ≤ q2 :=
  compute_road_risk_mono_rain ⟨"w7", RVal.vnum 100, RVal.vnum 1, RVal.vnum 5, RVal.vnum 2⟩
    10 20 (by norm_num) (by norm_num) (by decide) (by decide) (by decide) (by decide)

/-- C8: the concrete scenario — `suv` profile (base 50 km/h, residential
multiplier 0.65, loss 0.1 km/h per mm, λ = 50) on a 100 m residential edge
flooded 0.2 m costs 1028.8 (exactly, hence within ±0.1): effective speed
32.5, speed loss 20, flood speed 12.5, travel time 28.8 s, exposure 20. -/
theorem compute_edge_weight_concrete_suv :
    |compute_edge_weight ⟨some 0.2, some "residential", some 100⟩ suv - 1028.8| ≤ 0.1 := by
  have h : compute_edge_weight ⟨some 0.2, some "residential", some 100⟩ suv = 5144 / 5 := by
    simp [compute_edge_weight, compute_speed_in_flood, compute_travel_time,
      compute_flooding_exposure, suv, dictGet, List.find?]
    norm_num [max_def]
  rw [h]
  norm_num

/-! ## Helper lemmas: cost model -/

lemma dictGet_nonneg {l : List (String × ℚ)} (h : ∀ pr ∈ l, 0 ≤ pr.2) (k : String) :
    0 ≤ dictGet l k 1.0 := by
  unfold dictGet
  cases hf : l.find? (fun p => p.1 = k) with
  | none => norm_num
  | some p => exact h p (List.mem_of_find?_eq_some hf)

lemma compute_speed_in_flood_ge (b d l : ℚ) : 0.1 ≤ compute_speed_in_flood b d l := by
  simp only [compute_speed_in_flood]
  exact le_max_left _ _

lemma compute_speed_in_flood_pos (b d l : ℚ) : 0 < compute_speed_in_flood b d l :=
  lt_of_lt_of_le (by norm_num) (compute_speed_in_flood_ge b d l)

lemma compute_speed_in_flood_anti (b l : ℚ) (hl : 0 ≤ l) {d1 d2 : ℚ} (h : d1 ≤ d2) :
    compute_speed_in_flood b d2 l ≤ compute_speed_in_flood b d1 l := by
  simp only [compute_speed_in_flood]
  refine max_le_max le_rfl (max_le_max ?_ le_rfl)
  have hm : l * (d1 * 1000) ≤ l * (d2 * 1000) :=
    mul_le_mul_of_nonneg_left (by linarith) hl
  linarith

/-- C5: for edge attributes with non-negative flood depth and length and a
profile with non-negative base speed, road multipliers, speed-loss rate and
penalty coefficient, the speed used by `compute_edge_weight` is at least
0.1 km/h (so the travel-time division never divides by zero), and the
returned cost is non-negative (and, being a rational, finite) — with no
upper bound on the flood depth, so this covers depths beyond the profile's
`impassable_flood_depth_m`. -/
theorem compute_edge_weight_speed_floor_nonneg (edge : EdgeData) (p : Cars)
    (hf : 0 ≤ edge.flood_depth.getD 0.0) (hlen : 0 ≤ edge.length.getD 100.0)
    (hb : 0 ≤ p.base_speed_kmph) (hm : ∀ pr ∈ p.road_multipliers, 0 ≤ pr.2)
    (hloss : 0 ≤ p.flood_speed_loss_per_mm) (hlam : 0 ≤ p.flood_penalty_lambda) :
    0.1 ≤ compute_speed_in_flood
        (p.base_speed_kmph *
          dictGet p.road_multipliers (edge.road_class.getD "residential") 1.0)
        (edge.flood_depth.getD 0.0) p.flood_speed_loss_per_mm ∧
      0 ≤ compute_edge_weight edge p := by
  refine ⟨compute_speed_in_flood_ge _ _ _, ?_⟩
  show 0 ≤ compute_travel_time (edge.length.getD 100.0)
        (compute_speed_in_flood
          (p.base_speed_kmph *
            dictGet p.road_multipliers (edge.road_class.getD "residential") 1.0)
          (edge.flood_depth.getD 0.0) p.flood_speed_loss_per_mm) +
      compute_flooding_exposure (edge.flood_depth.getD 0.0) (edge.length.getD 100.0) *
        p.flood_penalty_lambda
  apply add_nonneg
  · unfold compute_travel_time
    apply div_nonneg hlen
    have hs : (0 : ℚ) ≤ compute_speed_in_flood
        (p.base_speed_kmph *
          dictGet p.road_multipliers (edge.road_class.getD "residential") 1.0)
        (edge.flood_depth.getD 0.0) p.flood_speed_loss_per_mm :=
      (compute_speed_in_flood_pos _ _ _).le
    exact div_nonneg (mul_nonneg hs (by norm_num)) (by norm_num)
  · exact mul_nonneg (mul_nonneg hf hlen) hlam

/-- Witness for C5: the `suv` profile on a 100 m residential edge flooded
1 m — well past the SUV's 0.6 m `impassable_flood_depth_m`. -/
theorem compute_edge_weight_speed_floor_nonneg_witness :
    0.1 ≤ compute_speed_in_flood
        (suv.base_speed_kmph *
          dictGet suv.road_multipliers
            ((some "residential").getD "residential") 1.0)
        ((some (1 : ℚ)).getD 0.0) suv.flood_speed_loss_per_mm ∧
      0 ≤ compute_edge_weight ⟨some 1, some "residential", some 100⟩ suv :=
  compute_edge_weight_speed_floor_nonneg ⟨some 1, some "residential", some 100⟩ suv
    (by norm_num) (by norm_num) (by norm_num [suv])
    (by intro pr hpr; simp only [suv] at hpr; fin_cases hpr <;> norm_num)
    (by norm_num [suv]) (by norm_num [suv])

/-- C6: for a fixed profile with non-negative speed-loss rate and penalty
coefficient and a fixed non-negative edge length and road class,
`compute_edge_weight` is non-decreasing in the flood depth. -/
theorem compute_edge_weight_mono_flood (p : Cars) (len : ℚ) (rc : Option String)
    (d1 d2 : ℚ) (hlen : 0 ≤ len) (hloss : 0 ≤ p.flood_speed_loss_per_mm)
    (hlam : 0 ≤ p.flood_penalty_lambda) (h0 : 0 ≤ d1) (h12 : d1 ≤ d2) :
    compute_edge_weight ⟨some d1, rc, some len⟩ p ≤
      compute_edge_weight ⟨some d2, rc, some len⟩ p := by
  show compute_travel_time len
        (compute_speed_in_flood
          (p.base_speed_kmph * dictGet p.road_multipliers (rc.getD "residential") 1.0)
          d1 p.flood_speed_loss_per_mm) +
      compute_flooding_exposure d1 len * p.flood_penalty_lambda ≤
    compute_travel_time len
        (compute_speed_in_flood
          (p.base_speed_kmph * dictGet p.road_multipliers (rc.getD "residential") 1.0)
          d2 p.flood_speed_loss_per_mm) +
      compute_flooding_exposure d2 len * p.flood_penalty_lambda
  have hanti := compute_speed_in_flood_anti
    (p.base_speed_kmph * dictGet p.road_multipliers (rc.getD "residential") 1.0)
    p.flood_speed_loss_per_mm hloss h12
  have hpos := compute_speed_in_flood_pos
    (p.base_speed_kmph * dictGet p.road_multipliers (rc.getD "residential") 1.0)
    d2 p.flood_speed_loss_per_mm
  apply add_le_add
  · have hd2 : (0 : ℚ) < compute_speed_in_flood
        (p.base_speed_kmph * dictGet p.road_multipliers (rc.getD "residential") 1.0)
        d2 p.flood_speed_loss_per_mm * 5 / 18 :=
      div_pos (mul_pos hpos (by norm_num)) (by norm_num)
    show len / (compute_speed_in_flood
          (p.base_speed_kmph * dictGet p.road_multipliers (rc.getD "residential") 1.0)
          d1 p.flood_speed_loss_per_mm * 5 / 18) ≤
        len / (compute_speed_in_flood
          (p.base_speed_kmph * dictGet p.road_multipliers (rc.getD "residential") 1.0)
          d2 p.flood_speed_loss_per_mm * 5 / 18)
    exact div_le_div_of_nonneg_left hlen hd2 (by linarith)
  · exact mul_le_mul_of_nonneg_right
      (mul_le_mul_of_nonneg_right h12 hlen) hlam

/-- Witness for C6: the `suv` profile, a 100 m residential edge, flood
depths 0.1 ≤ 0.7. -/
theorem compute_edge_weight_mono_flood_witness :
    compute_edge_weight ⟨some 0.1, some "residential", some 100⟩ suv ≤
      compute_edge_weight ⟨some 0.7, some "residential", some 100⟩ suv :=
  compute_edge_weight_mono_flood suv 100 (some "residential") 0.1 0.7
    (by norm_num) (by norm_num [suv]) (by norm_num [suv]) (by norm_num) (by norm_num)

/-! ## Helper lemmas: rounding -/

lemma abs_roundHalfEven_sub_le (x : ℚ) : |(roundHalfEven x : ℚ) - x| ≤ 1 / 2 := by
  have hfr : Int.fract x = x - (⌊x⌋ : ℚ) := rfl
  have h0 : 0 ≤ Int.fract x := Int.fract_nonneg x
  have h1 : Int.fract x < 1 := Int.fract_lt_one x
  unfold roundHalfEven
  split_ifs with ha hb hc <;>
    (rw [abs_le]; constructor) <;> push_cast <;> linarith

lemma abs_roundPy2_sub_le (q : ℚ) : |roundPy2 q - q| ≤ 1 / 200 := by
  have h := abs_roundHalfEven_sub_le (100 * q)
  have heq : roundPy2 q - q = ((roundHalfEven (100 * q) : ℚ) - 100 * q) / 100 := by
    unfold roundPy2; ring
  rw [heq, abs_div]
  have h100 : |(100 : ℚ)| = 100 := by norm_num
  rw [h100]
  have := div_le_div_of_nonneg_right h (by norm_num : (0 : ℚ) ≤ 100)
  linarith

lemma roundPy2_zero : roundPy2 0.0 = 0 := by
  norm_num [roundPy2, roundHalfEven]

lemma road_out_ok {r : Road} {rain : ℚ} {rv : ℚ} {lvl : String}
    (h : compute_road_risk r rain = Except.ok (rv, lvl)) :
    road_out r rain = ⟨some r.id, r.length, roundPy2 rv, lvl, r.avg_elevation⟩ := by
  unfold road_out
  rw [h]

lemma road_out_error {r : Road} {rain : ℚ} {e : Unit}
    (h : compute_road_risk r rain = Except.error e) :
    road_out r rain = ⟨some r.id, r.length, roundPy2 0.0, "low", r.avg_elevation⟩ := by
  unfold road_out
  rw [h]

/-- C10: every record produced by `compute_all_roads` carries the source
road's `id`, raw `length` and raw `avg_elevation`, its `risk` is the
`compute_road_risk` value rounded half-to-even at two decimals (hence
within 0.005 of the exact value), and an exception inside
`compute_road_risk` is replaced by risk `0.0` with level `"low"` instead of
propagating. -/
theorem compute_all_roads_record_spec (current_roads : List Road) (rain_mm : ℚ)
    (r : Road) (hr : r ∈ current_roads) :
    ∃ o, o ∈ compute_all_roads current_roads rain_mm ∧
      o.id = some r.id ∧ o.length = r.length ∧ o.avg_elevation = r.avg_elevation ∧
      ((∃ rv lvl, compute_road_risk r rain_mm = Except.ok (rv, lvl) ∧
          o.risk = roundPy2 rv ∧ |o.risk - rv| ≤ 1 / 200 ∧ o.level = lvl) ∨
        (compute_road_risk r rain_mm = Except.error () ∧ o.risk = 0 ∧ o.level = "low")) := by
  refine ⟨road_out r rain_mm, List.mem_map_of_mem _ hr, ?_⟩
  cases hres : compute_road_risk r rain_mm with
  | ok v =>
    obtain ⟨rv, lvl⟩ := v
    rw [road_out_ok hres]
    exact ⟨rfl, rfl, rfl, Or.inl ⟨rv, lvl, rfl, rfl, abs_roundPy2_sub_le rv, rfl⟩⟩
  | error e =>
    rw [road_out_error hres]
    exact ⟨rfl, rfl, rfl, Or.inr ⟨rfl, roundPy2_zero, rfl⟩⟩

/-- Witness for C10 at a concrete one-road list. -/
theorem compute_all_roads_record_spec_witness :
    ∃ o, o ∈ compute_all_roads [⟨"w10", RVal.vnum 100, RVal.vnum 1, RVal.vnum 5, RVal.vnum 2⟩] 50 ∧
      o.id = some "w10" ∧ o.length = RVal.vnum 100 ∧ o.avg_elevation = RVal.vnum 2 ∧
      ((∃ rv lvl,
          compute_road_risk ⟨"w10", RVal.vnum 100, RVal.vnum 1, RVal.vnum 5, RVal.vnum 2⟩ 50 =
            Except.ok (rv, lvl) ∧
          o.risk = roundPy2 rv ∧ |o.risk - rv| ≤ 1 / 200 ∧ o.level = lvl) ∨
        (compute_road_risk ⟨"w10", RVal.vnum 100, RVal.vnum 1, RVal.vnum 5, RVal.vnum 2⟩ 50 =
            Except.error () ∧ o.risk = 0 ∧ o.level = "low")) :=
  compute_all_roads_record_spec
    [⟨"w10", RVal.vnum 100, RVal.vnum 1, RVal.vnum 5, RVal.vnum 2⟩] 50
    ⟨"w10", RVal.vnum 100, RVal.vnum 1, RVal.vnum 5, RVal.vnum 2⟩ (List.mem_singleton.mpr rfl)

/-! ## Helper lemmas: the Dijkstra search -/

lemma isChain_cons_cons (g : MultiGraph) (a b : ℕ) (l : List ℕ) :
    isChain g (a :: b :: l) = ((¬(g.adj a b).isEmpty) && isChain g (b :: l)) := rfl

lemma isChainR_cons_cons (g : MultiGraph) (a b : ℕ) (l : List ℕ) :
    isChainR g (b :: a :: l) = ((¬(g.adj a b).isEmpty) && isChainR g (a :: l)) := rfl

lemma isChain_snoc (g : MultiGraph) (m : List ℕ) (a b : ℕ)
    (h : isChain g (m ++ [a]) = true) (he : (g.adj a b).isEmpty = false) :
    isChain g (m ++ [a, b]) = true := by
  induction m with
  | nil =>
    simp only [List.nil_append]
    rw [isChain_cons_cons]
    simp [isChain, he]
  | cons c m ih =>
    cases m with
    | nil =>
      simp only [List.cons_append, List.nil_append] at h ⊢
      rw [isChain_cons_cons] at h
      rw [isChain_cons_cons]
      simp only [Bool.and_eq_true] at h ⊢
      refine ⟨h.1, ?_⟩
      rw [isChain_cons_cons]
      simp [isChain, he]
    | cons d m' =>
      simp only [List.cons_append] at h ih ⊢
      rw [isChain_cons_cons] at h
      rw [isChain_cons_cons]
      simp only [Bool.and_eq_true] at h ⊢
      exact ⟨h.1, ih h.2⟩

lemma isChainR_reverse (g : MultiGraph) :
    ∀ (l : List ℕ), isChainR g l = true → isChain g l.reverse = true
  | [], _ => rfl
  | [_], _ => rfl
  | b :: a :: rest, h => by
    rw [isChainR_cons_cons] at h
    simp only [Bool.and_eq_true] at h
    have ih := isChainR_reverse g (a :: rest) h.2
    have he : (g.adj a b).isEmpty = false := by
      simpa using h.1
    rw [List.reverse_cons] at ih
    have hsnoc := isChain_snoc g rest.reverse a b ih he
    show isChain g ((b :: a :: rest).reverse) = true
    rw [List.reverse_cons, List.reverse_cons, List.append_assoc]
    simpa using hsnoc

lemma popMin_mem : ∀ {l : List DEntry} {e : DEntry} {rest : List DEntry},
    popMin l = some (e, rest) → e ∈ l ∧ ∀ x ∈ rest, x ∈ l
  | [], e, rest, h => by simp [popMin] at h
  | a :: l', e, rest, h => by
    rw [popMin] at h
    cases hp : popMin l' with
    | none =>
      rw [hp] at h
      cases h
      exact ⟨List.mem_cons_self a l', by intro x hx; cases hx⟩
    | some p =>
      obtain ⟨m, rest'⟩ := p
      rw [hp] at h
      dsimp only at h
      have ihm := popMin_mem hp
      by_cases hle : a.1 ≤ m.1
      · rw [if_pos hle] at h
        cases h
        exact ⟨List.mem_cons_self _ _, fun x hx => List.mem_cons_of_mem a hx⟩
      · rw [if_neg hle] at h
        cases h
        refine ⟨List.mem_cons_of_mem _ ihm.1, ?_⟩
        intro x hx
        rcases List.mem_cons.mp hx with rfl | hx'
        · exact List.mem_cons_self _ _
        · exact List.mem_cons_of_mem _ (ihm.2 x hx')

lemma dijkstraLoop_succ (g : MultiGraph) (w : ℕ → ℕ → ℚ) (target fuel : ℕ)
    (frontier : List DEntry) (visited : List ℕ) :
    dijkstraLoop g w target (fuel + 1) frontier visited =
      match popMin frontier with
      | none => none
      | some (e, rest) =>
        if e.2.1 ∈ visited then dijkstraLoop g w target fuel rest visited
        else if e.2.1 = target then some e.2.2.reverse
        else
          dijkstraLoop g w target fuel
            (rest ++ (g.nodes.filter
                (fun v => ¬(g.adj e.2.1 v).isEmpty ∧ v ∉ visited)).map
              (fun v => (e.1 + w e.2.1 v, v, v :: e.2.2)))
            (e.2.1 :: visited) := rfl

lemma dijkstraLoop_sound (g : MultiGraph) (w : ℕ → ℕ → ℚ) (s t : ℕ) :
    ∀ (fuel : ℕ) (frontier : List DEntry) (visited : List ℕ) (p : List ℕ),
      (∀ e ∈ frontier, EntryInv g s e) →
      dijkstraLoop g w t fuel frontier visited = some p →
      p.head? = some s ∧ p.getLast? = some t ∧ isChain g p = true := by
  intro fuel
  induction fuel with
  | zero =>
    intro frontier visited p _ h
    exact absurd h (by simp [dijkstraLoop])
  | succ fuel ih =>
    intro frontier visited p hinv h
    rw [dijkstraLoop_succ] at h
    cases hpop : popMin frontier with
    | none =>
      rw [hpop] at h
      exact absurd h (by simp)
    | some pr =>
      obtain ⟨e, rest⟩ := pr
      rw [hpop] at h
      dsimp only at h
      obtain ⟨hmem, hrest⟩ := popMin_mem hpop
      by_cases hv : e.2.1 ∈ visited
      · rw [if_pos hv] at h
        exact ih rest visited p (fun x hx => hinv x (hrest x hx)) h
      · rw [if_neg hv] at h
        by_cases htg : e.2.1 = t
        · rw [if_pos htg] at h
          obtain rfl : e.2.2.reverse = p := Option.some.inj h
          obtain ⟨h1, h2, h3⟩ := hinv e hmem
          refine ⟨?_, ?_, isChainR_reverse g _ h3⟩
          · rw [List.head?_reverse]
            exact h2
          · rw [List.getLast?_reverse, h1, htg]
        · rw [if_neg htg] at h
          apply ih _ _ p ?_ h
          intro x hx
          rcases List.mem_append.mp hx with hx | hx
          · exact hinv x (hrest x hx)
          · obtain ⟨nb, hvmem, rfl⟩ := List.mem_map.mp hx
            have hvf := List.mem_filter.mp hvmem
            have hedge : (g.adj e.2.1 nb).isEmpty = false := by
              have h2' := hvf.2
              simp only [decide_eq_true_eq] at h2'
              simpa using h2'.1
            obtain ⟨h1, h2, h3⟩ := hinv e hmem
            cases e22 : e.2.2 with
            | nil => rw [e22] at h1; cases h1
            | cons n0 rest0 =>
              rw [e22] at h1 h2 h3
              have hn0 : n0 = e.2.1 := Option.some.inj h1
              refine ⟨rfl, ?_, ?_⟩
              · show (nb :: n0 :: rest0).getLast? = some s
                rw [List.getLast?_cons_cons]
                exact h2
              · show isChainR g (nb :: n0 :: rest0) = true
                rw [isChainR_cons_cons]
                simp only [Bool.and_eq_true]
                constructor
                · rw [hn0]
                  simp [hedge]
                · exact h3

lemma dijkstra_path_sound (g : MultiGraph) (w : ℕ → ℕ → ℚ) (s t : ℕ) (p : List ℕ)
    (h : dijkstra_path g w s t = some p) :
    p.head? = some s ∧ p.getLast? = some t ∧ isChain g p = true := by
  apply dijkstraLoop_sound g w s t _ _ _ p ?_ h
  intro e he
  rw [List.mem_singleton] at he
  subst he
  exact ⟨rfl, rfl, rfl⟩

lemma not_reachable_of_no_edges (g : MultiGraph) (s t : ℕ)
    (hadj : ∀ a b, g.adj a b = []) (hst : s ≠ t) : ¬ Reachable g s t := by
  rintro ⟨p, h1, h2, h3⟩
  cases p with
  | nil => cases h1
  | cons a l =>
    cases l with
    | nil =>
      apply hst
      have ha : a = s := Option.some.inj h1
      have hb : a = t := by simpa using h2
      rw [← ha, hb]
    | cons b l' =>
      rw [isChain_cons_cons] at h3
      simp only [Bool.and_eq_true] at h3
      have := h3.1
      rw [hadj a b] at this
      simp at this

lemma sum_edge_costs_eq_spec (g : MultiGraph) (prof : Cars) :
    ∀ path : List ℕ, sum_edge_costs g prof path = path_cost_spec g prof path
  | [] => by simp [sum_edge_costs, path_cost_spec]
  | [a] => by simp [sum_edge_costs, path_cost_spec]
  | a :: b :: l => by
    have ih := sum_edge_costs_eq_spec g prof (b :: l)
    show compute_edge_weight (edgeKey0 g a b) prof + sum_edge_costs g prof (b :: l) =
      path_cost_spec g prof (a :: b :: l)
    rw [ih]
    simp only [path_cost_spec, List.tail_cons, List.zip_cons_cons, List.map_cons,
      List.sum_cons]

lemma lookup_update : ∀ (es : List (((ℤ × ℤ) × (ℤ × ℤ)) × SEdge)) (ka kb : ℤ × ℤ)
    (e old : SEdge), lookup_edge es ka kb = some old →
    lookup_edge (update_edge es ka kb e) ka kb = some e
  | [], ka, kb, e, old, h => by simp [lookup_edge] at h
  | pe :: rest, ka, kb, e, old, h => by
    by_cases hm : edgeMatches ka kb pe.1 = true
    · unfold update_edge
      rw [if_pos hm]
      unfold lookup_edge
      have hf : List.find? (fun q => edgeMatches ka kb q.1) ((pe.1, e) :: rest) =
          some (pe.1, e) := List.find?_cons_of_pos rest hm
      rw [hf]
    · unfold update_edge
      rw [if_neg hm]
      unfold lookup_edge at h ⊢
      rw [List.find?_cons_of_neg _ (by simpa using hm)] at h
      rw [List.find?_cons_of_neg _ (by simpa using hm)]
      exact lookup_update rest ka kb e old h

/-- C1: whenever a simulation trial reports `status = "success"`, the
reported `total_cost` equals (exactly, hence within the 1e-6 tolerance) the
sum of `compute_edge_weight`, under the trial's vehicle profile, over the
consecutive edges of the path the route computation returned. -/
theorem simulate_total_cost_matches (g : MultiGraph) (i : ℕ) (vt : String) (u v : ℕ)
    (rec : SimRecord) (h : simulate_trial g i vt u v = some rec)
    (hst : rec.status = "success") :
    ∃ veh rr, create_vehicle (toString i) vt = some veh ∧
      compute_route g (g.y u, g.x u) (g.y v, g.x v) veh.profile = some rr ∧
      rr.status = "success" ∧
      ∃ c : ℚ, rec.total_cost = (c : WithTop ℚ) ∧
        |c - path_cost_spec g veh.profile rr.path| ≤ 1 / 1000000 := by
  unfold simulate_trial at h
  cases hveh : create_vehicle (toString i) vt with
  | none => rw [hveh] at h; cases h
  | some veh =>
    rw [hveh] at h
    dsimp only at h
    cases hroute : compute_route g (g.y u, g.x u) (g.y v, g.x v) veh.profile with
    | none => rw [hroute] at h; cases h
    | some rr =>
      rw [hroute] at h
      dsimp only at h
      by_cases hs : rr.status = "success"
      · rw [if_pos hs] at h
        obtain rfl : _ = rec := Option.some.inj h
        refine ⟨veh, rr, rfl, hroute, hs,
          sum_edge_costs g veh.profile rr.path, rfl, ?_⟩
        rw [sum_edge_costs_eq_spec]
        simp
      · rw [if_neg hs] at h
        obtain rfl : _ = rec := Option.some.inj h
        simp at hst

/-- Witness for C1: a successful trial on the two-node graph `cg2`. -/
theorem simulate_total_cost_matches_witness :
    ∃ veh rr, create_vehicle (toString 0) "suv" = some veh ∧
      compute_route cg2 (cg2.y 1, cg2.x 1) (cg2.y 2, cg2.x 2) veh.profile = some rr ∧
      rr.status = "success" ∧
      ∃ c : ℚ,
        SimRecord.total_cost
            { vehicle_id := 0, vehicle_type := "suv", status := "success",
              start_node := 1, end_node := some 2,
              path_coords := some (coord_path cg2 [1, 2]), start_coord := none,
              total_cost := ((sum_edge_costs cg2 suv [1, 2] : ℚ) : WithTop ℚ) } =
          (c : WithTop ℚ) ∧
        |c - path_cost_spec cg2 veh.profile rr.path| ≤ 1 / 1000000 := by
  have hsim : simulate_trial cg2 0 "suv" 1 2 =
      some { vehicle_id := 0, vehicle_type := "suv", status := "success",
             start_node := 1, end_node := some 2,
             path_coords := some (coord_path cg2 [1, 2]), start_coord := none,
             total_cost := ((sum_edge_costs cg2 suv [1, 2] : ℚ) : WithTop ℚ) } := by
    unfold simulate_trial
    rw [show create_vehicle (toString 0) "suv" =
        some ⟨toString 0, "suv", suv, none, none, []⟩ from rfl]
    dsimp only
    have hroute : compute_route cg2 (cg2.y 1, cg2.x 1) (cg2.y 2, cg2.x 2) suv =
        some { path := [1, 2], vehicle_type := "suv", status := "success" } := by
      have hs : nearest_nodes cg2 (cg2.y 1, cg2.x 1).2 (cg2.y 1, cg2.x 1).1 = some 1 := by
        simp [nearest_nodes, cg2, List.foldl]
      have ht : nearest_nodes cg2 (cg2.y 2, cg2.x 2).2 (cg2.y 2, cg2.x 2).1 = some 2 := by
        simp [nearest_nodes, cg2, List.foldl]
      have hpath : dijkstra_path cg2 (weight_function cg2 suv) 1 2 = some [1, 2] := by
        rw [dijkstra_path,
          show (cg2.nodes.length + 1) * (cg2.nodes.length + 1) = 8 + 1 from by simp [cg2],
          dijkstraLoop_succ]
        simp only [popMin]
        simp [cg2]
        rw [show (8 : ℕ) = 7 + 1 from rfl, dijkstraLoop_succ]
        simp [popMin, cg2]
      unfold compute_route
      rw [hs, ht]
      dsimp only
      rw [hpath]
      rfl
    rw [hroute]
    dsimp only
    rw [if_pos rfl]
  exact simulate_total_cost_matches cg2 0 "suv" 1 2 _ hsim rfl

/-- C2 is refuted as stated: when the origin and destination resolve to the
same node, `compute_route` returns `status = "success"` with a single-node
path — here concretely on `cg2` with both query points at node 1's
coordinates. -/
theorem compute_route_single_node_success :
    compute_route cg2 (0, 0) (0, 0) suv =
      some { path := [1], vehicle_type := "suv", status := "success" } ∧
    ([1] : List ℕ).length = 1 := by
  refine ⟨?_, rfl⟩
  have hs : nearest_nodes cg2 ((0 : ℚ), (0 : ℚ)).2 ((0 : ℚ), (0 : ℚ)).1 = some 1 := by
    simp [nearest_nodes, cg2, List.foldl]
  have hpath : dijkstra_path cg2 (weight_function cg2 suv) 1 1 = some [1] := by
    rw [dijkstra_path,
      show (cg2.nodes.length + 1) * (cg2.nodes.length + 1) = 8 + 1 from by simp [cg2],
      dijkstraLoop_succ]
    simp [popMin]
  unfold compute_route
  rw [hs]
  dsimp only
  rw [hpath]
  rfl

/-- C2 (amended): a `success` route has a nonempty path whose consecutive
pairs are all real edges of the graph, starting at the resolved origin node
and ending at the resolved destination node; it has at least 2 nodes
whenever those two resolved nodes differ (a single-node path arises exactly
when origin and destination resolve to the same node). -/
theorem compute_route_success_path_valid (g : MultiGraph) (sc tc : ℚ × ℚ) (prof : Cars)
    (rr : RouteResult) (s t : ℕ)
    (hs : nearest_nodes g sc.2 sc.1 = some s) (ht : nearest_nodes g tc.2 tc.1 = some t)
    (h : compute_route g sc tc prof = some rr) (hst : rr.status = "success") :
    rr.path.head? = some s ∧ rr.path.getLast? = some t ∧ isChain g rr.path = true ∧
      1 ≤ rr.path.length ∧ (s ≠ t → 2 ≤ rr.path.length) := by
  unfold compute_route at h
  rw [hs, ht] at h
  dsimp only at h
  cases hdp : dijkstra_path g (weight_function g prof) s t with
  | none =>
    rw [hdp] at h
    obtain rfl : _ = rr := Option.some.inj h
    simp at hst
  | some path =>
    rw [hdp] at h
    obtain rfl : _ = rr := Option.some.inj h
    obtain ⟨h1, h2, h3⟩ := dijkstra_path_sound g _ s t path hdp
    refine ⟨h1, h2, h3, ?_, ?_⟩
    · cases path with
      | nil => cases h1
      | cons a l => simp
    · intro hne
      cases path with
      | nil => cases h1
      | cons a l =>
        cases l with
        | nil =>
          exfalso
          apply hne
          have ha : a = s := Option.some.inj h1
          have hb : a = t := by simpa using h2
          rw [← ha, hb]
        | cons b l' => simp

/-- Witness for the amended C2 at a concrete success route with distinct
resolved endpoints. -/
theorem compute_route_success_path_valid_witness :
    (([1, 2] : List ℕ).head? = some 1 ∧ ([1, 2] : List ℕ).getLast? = some 2 ∧
      isChain cg2 [1, 2] = true ∧ 1 ≤ ([1, 2] : List ℕ).length ∧
      ((1 : ℕ) ≠ 2 → 2 ≤ ([1, 2] : List ℕ).length)) := by
  have hs : nearest_nodes cg2 ((0 : ℚ), (0 : ℚ)).2 ((0 : ℚ), (0 : ℚ)).1 = some 1 := by
    simp [nearest_nodes, cg2, List.foldl]
  have ht : nearest_nodes cg2 ((1 : ℚ), (1 : ℚ)).2 ((1 : ℚ), (1 : ℚ)).1 = some 2 := by
    simp [nearest_nodes, cg2, List.foldl]
  have hr : compute_route cg2 (0, 0) (1, 1) suv =
      some { path := [1, 2], vehicle_type := "suv", status := "success" } := by
    have hpath : dijkstra_path cg2 (weight_function cg2 suv) 1 2 = some [1, 2] := by
      rw [dijkstra_path,
        show (cg2.nodes.length + 1) * (cg2.nodes.length + 1) = 8 + 1 from by simp [cg2],
        dijkstraLoop_succ]
      simp only [popMin]
      simp [cg2]
      rw [show (8 : ℕ) = 7 + 1 from rfl, dijkstraLoop_succ]
      simp [popMin, cg2]
    unfold compute_route
    rw [hs, ht]
    dsimp only
    rw [hpath]
    rfl
  exact compute_route_success_path_valid cg2 (0, 0) (1, 1) suv
    { path := [1, 2], vehicle_type := "suv", status := "success" } 1 2 hs ht hr rfl

/-- C3: when no path exists between the resolved origin and destination
nodes, `compute_route` returns (rather than raises) the structured
`blocked` result with an empty path, and the simulation records that trial
as stranded with cost positive infinity. -/
theorem no_path_blocked_inf (g : MultiGraph) (i : ℕ) (vt : String) (u v : ℕ)
    (veh : Vehicle) (s t : ℕ)
    (hveh : create_vehicle (toString i) vt = some veh)
    (hs : nearest_nodes g (g.x u) (g.y u) = some s)
    (ht : nearest_nodes g (g.x v) (g.y v) = some t)
    (hnr : ¬ Reachable g s t) :
    compute_route g (g.y u, g.x u) (g.y v, g.x v) veh.profile =
        some { path := [], vehicle_type := veh.profile.name, status := "blocked" } ∧
      ∃ rec, simulate_trial g i vt u v = some rec ∧
        rec.status = "stranded" ∧ rec.total_cost = ⊤ := by
  have hroute : compute_route g (g.y u, g.x u) (g.y v, g.x v) veh.profile =
      some { path := [], vehicle_type := veh.profile.name, status := "blocked" } := by
    unfold compute_route
    rw [hs, ht]
    dsimp only
    cases hdp : dijkstra_path g (weight_function g veh.profile) s t with
    | some path =>
      exfalso
      obtain ⟨h1, h2, h3⟩ := dijkstra_path_sound g _ s t path hdp
      exact hnr ⟨path, h1, h2, h3⟩
    | none => rfl
  refine ⟨hroute, ?_⟩
  have hsim : simulate_trial g i vt u v =
      some { vehicle_id := i, vehicle_type := vt, status := "stranded", start_node := u,
             end_node := none, path_coords := none,
             start_coord := some (g.y u, g.x u), total_cost := ⊤ } := by
    unfold simulate_trial
    rw [hveh]
    dsimp only
    rw [hroute]
    dsimp only
    rw [if_neg (show ¬(("blocked" : String) = "success") from by decide)]
  exact ⟨_, hsim, rfl, rfl⟩

/-- Witness for C3 on the edgeless two-node graph `dg`. -/
theorem no_path_blocked_inf_witness :
    compute_route dg (dg.y 1, dg.x 1) (dg.y 2, dg.x 2)
        (Vehicle.profile ⟨toString 0, "suv", suv, none, none, []⟩) =
        some { path := [],
               vehicle_type := (Vehicle.profile ⟨toString 0, "suv", suv, none, none, []⟩).name,
               status := "blocked" } ∧
      ∃ rec, simulate_trial dg 0 "suv" 1 2 = some rec ∧
        rec.status = "stranded" ∧ rec.total_cost = ⊤ :=
  no_path_blocked_inf dg 0 "suv" 1 2 ⟨toString 0, "suv", suv, none, none, []⟩ 1 2
    rfl
    (by simp [nearest_nodes, dg, List.foldl])
    (by simp [nearest_nodes, dg, List.foldl])
    (not_reachable_of_no_edges dg 1 2 (fun _ _ => rfl) (by decide))

/-- C9 is refuted as stated: on the multigraph `mg9`, whose two parallel
edges between nodes 1 and 2 are a flooded key-0 edge and a dry, strictly
cheaper key-1 edge, the simulation's cost summation charges the key-0
edge's cost 6100 — not the minimum-cost parallel edge's cost. -/
theorem simulation_uses_key0_not_min :
    simulate_trial mg9 0 "suv" 1 2 =
      some { vehicle_id := 0, vehicle_type := "suv", status := "success",
             start_node := 1, end_node := some 2,
             path_coords := some [(0, 0), (1, 1)], start_coord := none,
             total_cost := ((6100 : ℚ) : WithTop ℚ) } ∧
    edgeKey0 mg9 1 2 = ⟨some 0.5, some "residential", some 100⟩ ∧
    compute_edge_weight ⟨some 0, some "residential", some 100⟩ suv <
      compute_edge_weight ⟨some 0.5, some "residential", some 100⟩ suv := by
  have hkey : edgeKey0 mg9 1 2 = ⟨some 0.5, some "residential", some 100⟩ := by
    simp [edgeKey0, mg9]
  have hw0 : compute_edge_weight ⟨some 0.5, some "residential", some 100⟩ suv = 6100 := by
    simp [compute_edge_weight, compute_speed_in_flood, compute_travel_time,
      compute_flooding_exposure, suv, dictGet, List.find?]
    norm_num [max_def]
  have hw1 : compute_edge_weight ⟨some 0, some "residential", some 100⟩ suv = 144 / 13 := by
    simp [compute_edge_weight, compute_speed_in_flood, compute_travel_time,
      compute_flooding_exposure, suv, dictGet, List.find?]
    norm_num [max_def]
  refine ⟨?_, hkey, ?_⟩
  · unfold simulate_trial
    rw [show create_vehicle (toString 0) "suv" =
        some ⟨toString 0, "suv", suv, none, none, []⟩ from rfl]
    dsimp only
    have hroute : compute_route mg9 (mg9.y 1, mg9.x 1) (mg9.y 2, mg9.x 2) suv =
        some { path := [1, 2], vehicle_type := "suv", status := "success" } := by
      have hs : nearest_nodes mg9 (mg9.y 1, mg9.x 1).2 (mg9.y 1, mg9.x 1).1 = some 1 := by
        simp [nearest_nodes, mg9, List.foldl]
      have ht : nearest_nodes mg9 (mg9.y 2, mg9.x 2).2 (mg9.y 2, mg9.x 2).1 = some 2 := by
        simp [nearest_nodes, mg9, List.foldl]
      have hpath : dijkstra_path mg9 (weight_function mg9 suv) 1 2 = some [1, 2] := by
        rw [dijkstra_path,
          show (mg9.nodes.length + 1) * (mg9.nodes.length + 1) = 8 + 1 from by simp [mg9],
          dijkstraLoop_succ]
        simp only [popMin]
        simp [mg9]
        rw [show (8 : ℕ) = 7 + 1 from rfl, dijkstraLoop_succ]
        simp [popMin, mg9]
      unfold compute_route
      rw [hs, ht]
      dsimp only
      rw [hpath]
      rfl
    rw [hroute]
    dsimp only
    rw [if_pos rfl]
    have hsum : sum_edge_costs mg9 suv [1, 2] = 6100 := by
      show compute_edge_weight (edgeKey0 mg9 1 2) suv + sum_edge_costs mg9 suv [2] = 6100
      rw [hkey, hw0]
      show (6100 : ℚ) + 0 = 6100
      norm_num
    have hcoord : coord_path mg9 [1, 2] = [(0, 0), (1, 1)] := by
      simp [coord_path, mg9]
    rw [hsum, hcoord]
  · rw [hw0, hw1]
    norm_num

/-- C9 (amended): the build-time half of the claim holds —
`build_graph_from_bbox`'s per-segment insert collapses a parallel edge
between the same endpoint keys to the one with the smaller weight; the
router/simulation lookup path instead always uses the parallel edge stored
at key 0 (see the refutation above). -/
theorem build_collapse_keeps_min (es : List (((ℤ × ℤ) × (ℤ × ℤ)) × SEdge))
    (ka kb : ℤ × ℤ) (length risk_val risk_penalty : ℚ) (old : SEdge)
    (hold : lookup_edge es ka kb = some old) :
    ∃ e', lookup_edge (add_segment_edge es ka kb length risk_val risk_penalty) ka kb =
        some e' ∧
      e'.weight = min (length * (1 + risk_val * risk_penalty)) old.weight := by
  unfold add_segment_edge
  rw [hold]
  dsimp only
  by_cases hw : length * (1 + risk_val * risk_penalty) < old.weight
  · rw [if_pos hw]
    refine ⟨⟨length * (1 + risk_val * risk_penalty), length, risk_val⟩,
      lookup_update es ka kb _ old hold, ?_⟩
    exact (min_eq_left hw.le).symm
  · rw [if_neg hw]
    exact ⟨old, hold, (min_eq_right (le_of_not_lt hw)).symm⟩

/-- Witness for the amended C9: inserting a cheaper parallel edge replaces
the stored one. -/
theorem build_collapse_keeps_min_witness :
    ∃ e', lookup_edge
        (add_segment_edge [(((0, 0), (1, 1)), ⟨10, 5, 0⟩)] (0, 0) (1, 1) 2 0 5)
        (0, 0) (1, 1) = some e' ∧
      e'.weight = min ((2 : ℚ) * (1 + 0 * 5)) (SEdge.weight ⟨10, 5, 0⟩) :=
  build_collapse_keeps_min [(((0, 0), (1, 1)), ⟨10, 5, 0⟩)] (0, 0) (1, 1) 2 0 5
    ⟨10, 5, 0⟩ rfl

end Intel
